import Mathlib

/-!
Verification of two modules of `autotrain-advanced`.

The first part embeds `EvaluateOnEveryPercentCallback` from
`src/autotrain/trainers/clm/callbacks.py`.  Two points of the Python code
matter for the theorems below and are embedded literally:

* `__init__` executes `steps_done = set([0])`, binding a *local* variable
  that is discarded; it never assigns `self.steps_done`, so a constructed
  instance has no `steps_done` attribute and reading it raises
  `AttributeError`.
* `on_step_begin` computes `percent = int(100*(curr_step//max_steps))`:
  the floor division is inside the product, so the value is
  `100 * (curr_step // max_steps)` with no clamping, not
  `floor(100 * curr_step / max_steps)`.

The second part embeds `LLMPreprocessor.split` from
`src/autotrain/preprocessor/text.py`.
-/

namespace Callbacks

/-- Python errors that `on_step_begin` can raise: `ZeroDivisionError` from
`curr_step // max_steps` when `max_steps == 0`, and `AttributeError` from
reading `self.steps_done` when the instance has no such attribute. -/
inductive PyErr where
  | zeroDivisionError
  | attributeError
  deriving DecidableEq, Repr

/-- The two fields of `TrainerState` that `on_step_begin` reads.
Python integers are unbounded, so both are `ℤ`. -/
structure TrainerState where
  global_step : ℤ
  max_steps : ℤ
  deriving DecidableEq, Repr

/-- The `TrainerControl` object.  `should_evaluate` is the only field the
callback ever writes; `should_save` and `should_log` stand for the other
fields of the real object, so that frame conditions are expressible. -/
structure TrainerControl where
  should_evaluate : Bool
  should_save : Bool
  should_log : Bool
  deriving DecidableEq, Repr

/-- Instance state of `EvaluateOnEveryPercentCallback`.  The field is
`some s` when the instance carries a `steps_done` attribute holding the
set `s`, and `none` when the attribute is absent, in which case a read of
`self.steps_done` raises `AttributeError`. -/
structure GateObj where
  steps_done : Option (Finset ℤ)
  deriving DecidableEq

/-- Embeds `__init__`: the statement `steps_done = set([0])` creates a
local variable and discards it, so no attribute is stored on `self`. -/
def initGate : GateObj := { steps_done := none }

/-- Embeds `percent = int(100*(curr_step//max_steps))`.  Python `//` is
floor division, which on `ℤ` is `Int.fdiv`; `int(...)` applied to an
`int` is the identity. -/
def percent (curr_step max_steps : ℤ) : ℤ :=
  100 * Int.fdiv curr_step max_steps

/-- Embeds `on_step_begin`.  Python evaluates `curr_step // max_steps`
first (raising `ZeroDivisionError` when `max_steps == 0`), then looks up
`self.steps_done` for the membership test (raising `AttributeError` when
the attribute is absent), and on the not-in branch runs
`self.steps_done.add(percent)` and `control.should_evaluate = True`
before returning `control`; on the other branch it returns `control`
untouched. -/
def on_step_begin (g : GateObj) (state : TrainerState) (control : TrainerControl) :
    Except PyErr (GateObj × TrainerControl) :=
  let curr_step := state.global_step
  let max_steps := state.max_steps
  if max_steps = 0 then
    Except.error PyErr.zeroDivisionError
  else
    let p := percent curr_step max_steps
    match g.steps_done with
    | none => Except.error PyErr.attributeError
    | some s =>
      if p ∉ s then
        Except.ok ({ steps_done := some (insert p s) },
                   { control with should_evaluate := true })
      else
        Except.ok (g, control)

/-- The `should_evaluate(current_step, total_steps)` view of a call used by
the specification: run `on_step_begin` on a control whose flags are all
clear and report the updated gate together with whether the call set
`control.should_evaluate`. -/
def should_evaluate (g : GateObj) (current_step total_steps : ℤ) :
    Except PyErr (GateObj × Bool) :=
  (on_step_begin g { global_step := current_step, max_steps := total_steps }
      { should_evaluate := false, should_save := false, should_log := false }).map
    (fun r => (r.1, r.2.should_evaluate))

/-- The percent formula stated by the specification (not by the code):
`floor(100 * current_step / total_steps)`, clamped to the interval from
0 to 100. -/
def percentSpec (current_step total_steps : ℤ) : ℤ :=
  max 0 (min 100 (Int.fdiv (100 * current_step) total_steps))

/-- Runs a sequence of `should_evaluate` calls, each given as a pair of
`current_step` and `total_steps`, threading the gate state and stopping at
the first raised error. -/
def runGate (g : GateObj) (calls : List (ℤ × ℤ)) : Except PyErr GateObj :=
  calls.foldlM (fun gacc c => (should_evaluate gacc c.1 c.2).map Prod.fst) g

end Callbacks

namespace Text

/-- The fields of `LLMPreprocessor` that `split` reads, over an abstract
dataframe type `DF`.  The remaining constructor fields (`username`,
`project_name`, `token`, `test_size`, `seed` and the column names) do not
occur in `split` and are omitted. -/
structure LLMPreprocessor (DF : Type) where
  train_data : DF
  valid_data : Option DF

/-- Embeds `LLMPreprocessor.split`: with validation data present it
returns `(train_data, valid_data)`; otherwise it returns
`(train_data, train_data)` — the `train_test_split` branch is commented
out in the source, so no split is performed. -/
def LLMPreprocessor.split {DF : Type} (p : LLMPreprocessor DF) : DF × DF :=
  match p.valid_data with
  | some v => (p.train_data, v)
  | none => (p.train_data, p.train_data)

end Text

namespace Callbacks

/-- C1: the code's percent is not `floor(100 * current_step / total_steps)`
clamped to the interval from 0 to 100.  At `current_step = 1`,
`total_steps = 3` the code computes `int(100*(1//3)) = 0` while the
claimed formula gives 33; at `current_step = 2`, `total_steps = 1` the
code computes 200, above the claimed clamp of 100. -/
theorem c1_percent_values :
    percent 1 3 = 0 ∧ percentSpec 1 3 = 33 ∧
    percent 2 1 = 200 ∧ percentSpec 2 1 = 100 := by
  refine ⟨by decide, by decide, by decide, by decide⟩

/-- C2: construction does not produce a milestone-set field equal to the
singleton of 0.  `__init__` binds the set to a local variable and stores
nothing on the instance, so the freshly constructed gate has no
`steps_done` attribute at all. -/
theorem c2_init_no_steps_done_field : initGate.steps_done = none := rfl

/-- C3 counterexample: a call with `total_steps = -1` (which is at most 0)
is not rejected by a division error.  On the actually constructed gate the
failure is an `AttributeError`, raised only after the percent was
computed; on a gate carrying the milestone set the call completes
normally, adds percent -500 and returns true. -/
theorem c3_negative_total_steps_not_rejected :
    should_evaluate initGate 5 (-1) = Except.error PyErr.attributeError ∧
    should_evaluate { steps_done := some {0} } 5 (-1) =
      Except.ok ({ steps_done := some {-500, 0} }, true) :=
  ⟨rfl, rfl⟩

/-- C3 amended: only `total_steps = 0` makes the percent computation fail,
with a `ZeroDivisionError` propagated to the caller before the milestone
set is read or written; this holds for every gate state and every
`current_step`. -/
theorem c3_zero_total_steps_division_error :
    ∀ (g : GateObj) (cs : ℤ),
      should_evaluate g cs 0 = Except.error PyErr.zeroDivisionError := by
  intro g cs
  rfl

/-- C3 witness: the division error at the concrete call with
`current_step = 5` and `total_steps = 0`. -/
theorem c3_zero_total_steps_division_error_witness :
    should_evaluate initGate 5 0 = Except.error PyErr.zeroDivisionError :=
  c3_zero_total_steps_division_error initGate 5

/-- C4: the milestone set is not bounded by 101 entries.  On the actually
constructed gate every call raises `AttributeError`, so no set exists;
and starting from a gate that does carry the seeded set, 102 calls at
`current_step = 0, 1, ..., 101` with `total_steps = 1` produce the 102
distinct percents `0, 100, 200, ..., 10100`, giving a set of 102
entries. -/
theorem c4_unbounded_growth :
    should_evaluate initGate 7 3 = Except.error PyErr.attributeError ∧
    (runGate { steps_done := some {0} }
        ((List.range 102).map (fun k => ((k : ℤ), 1)))).map
      (fun g => (g.steps_done.getD ∅).card) = Except.ok 102 :=
  ⟨rfl, rfl⟩

/-- C5: a call with `total_steps > 0` on the actually constructed gate
neither adds a percent nor returns a boolean: reading the absent
`steps_done` attribute raises `AttributeError`. -/
theorem c5_fresh_gate_raises :
    should_evaluate initGate 2 5 = Except.error PyErr.attributeError := rfl

/-- C6: for `total_steps = 3` the code's percents at steps 0, 1, 2, 3 are
0, 0, 0, 100 — not the claimed 0, 33, 66, 100 — and the first call of the
claimed sequence raises `AttributeError` on the constructed gate instead
of returning false. -/
theorem c6_percent_trace :
    percent 0 3 = 0 ∧ percent 1 3 = 0 ∧ percent 2 3 = 0 ∧ percent 3 3 = 100 ∧
    should_evaluate initGate 0 3 = Except.error PyErr.attributeError := by
  refine ⟨by decide, by decide, by decide, by decide, rfl⟩

/-- C7: the first call `should_evaluate(0, 5)` on a freshly constructed
gate does not return false: it raises `AttributeError`, because the
seeded set was bound to a local variable in `__init__` and the instance
has no `steps_done` attribute. -/
theorem c7_first_call_raises :
    should_evaluate initGate 0 5 = Except.error PyErr.attributeError := rfl

/-- C8: on the gate state actually produced by construction, a repeated
call at the same step never returns false — every repetition raises
`AttributeError`, and the gate state it leaves behind is unchanged, so
the repetition fails identically. -/
theorem c8_repeat_call_raises :
    should_evaluate initGate 4 10 = Except.error PyErr.attributeError := rfl

/-- C9: on the actually constructed gate, `on_step_begin` does not return
the control object it was passed: the call raises `AttributeError` before
reaching the return statement. -/
theorem c9_control_not_returned :
    on_step_begin initGate { global_step := 1, max_steps := 4 }
      { should_evaluate := false, should_save := true, should_log := false } =
    Except.error PyErr.attributeError := rfl

end Callbacks

namespace Text

/-- C10: when `valid_data` is absent, `LLMPreprocessor.split` returns the
training dataframe twice — the validation dataframe is the identical
training dataframe and no split is performed. -/
theorem llm_split_returns_train_twice {DF : Type} (p : LLMPreprocessor DF)
    (h : p.valid_data = none) :
    p.split = (p.train_data, p.train_data) := by
  cases p with
  | mk t v =>
    cases v with
    | none => rfl
    | some v0 => exact Option.noConfusion h

/-- C10 witness: the split of a concrete preprocessor with no validation
data returns the training data twice. -/
theorem llm_split_returns_train_twice_witness :
    ({ train_data := 7, valid_data := none } : LLMPreprocessor ℕ).valid_data = none ∧
    ({ train_data := 7, valid_data := none } : LLMPreprocessor ℕ).split = (7, 7) :=
  ⟨rfl, llm_split_returns_train_twice { train_data := 7, valid_data := none } rfl⟩

end Text
